import Mathlib

/-!
Verification of the geocache caching reverse proxy (Go).

The embedding follows the source files under review:
- `getCacheKey` (SHA-256 of the raw request URI, optional namespace)
- the `query` handler: cache lookup, upstream fetch, best-effort cache write
- the outbound-URI credential injection (`strings.Contains(ruri, "key=")`)

Machine words are `Nat` reduced modulo `2 ^ 32` where the Go code uses
`uint32` (inside `crypto/sha256`).  SHA-256 itself is embedded from
FIPS 180-4, which is what `crypto/sha256` implements; two standard test
vectors are checked below.
-/

/-- Go `[]byte(s)`: UTF-8 encoding of one Unicode code point. -/
def utf8EncodeCodePoint (n : Nat) : List Nat :=
  if n < 0x80 then [n]
  else if n < 0x800 then
    [0xC0 ||| (n >>> 6), 0x80 ||| (n &&& 0x3F)]
  else if n < 0x10000 then
    [0xE0 ||| (n >>> 12), 0x80 ||| ((n >>> 6) &&& 0x3F), 0x80 ||| (n &&& 0x3F)]
  else
    [0xF0 ||| (n >>> 18), 0x80 ||| ((n >>> 12) &&& 0x3F),
     0x80 ||| ((n >>> 6) &&& 0x3F), 0x80 ||| (n &&& 0x3F)]

/-- Go `[]byte(s)` applied to a whole string. -/
def utf8Bytes (s : String) : List Nat :=
  s.data.foldr (fun c acc => utf8EncodeCodePoint c.toNat ++ acc) []

/-- Truncation to a 32-bit word (`uint32` arithmetic in Go). -/
def w32 (x : Nat) : Nat := x % 4294967296

/-- 32-bit rotate right. -/
def rotr (n x : Nat) : Nat := w32 ((x >>> n) ||| (x <<< (32 - n)))

/-- FIPS 180-4 `Ch`. -/
def shaCh (x y z : Nat) : Nat := (x &&& y) ^^^ ((x ^^^ 0xFFFFFFFF) &&& z)

/-- FIPS 180-4 `Maj`. -/
def shaMaj (x y z : Nat) : Nat := (x &&& y) ^^^ (x &&& z) ^^^ (y &&& z)

/-- FIPS 180-4 `Σ₀`. -/
def bigSigma0 (x : Nat) : Nat := rotr 2 x ^^^ rotr 13 x ^^^ rotr 22 x

/-- FIPS 180-4 `Σ₁`. -/
def bigSigma1 (x : Nat) : Nat := rotr 6 x ^^^ rotr 11 x ^^^ rotr 25 x

/-- FIPS 180-4 `σ₀`. -/
def smallSigma0 (x : Nat) : Nat := rotr 7 x ^^^ rotr 18 x ^^^ (x >>> 3)

/-- FIPS 180-4 `σ₁`. -/
def smallSigma1 (x : Nat) : Nat := rotr 17 x ^^^ rotr 19 x ^^^ (x >>> 10)

/-- The 64 SHA-256 round constants (FIPS 180-4 §4.2.2, written in
decimal). -/
def shaK : List Nat :=
  [1116352408, 1899447441, 3049323471, 3921009573, 961987163,
   1508970993, 2453635748, 2870763221, 3624381080, 310598401,
   607225278, 1426881987, 1925078388, 2162078206, 2614888103,
   3248222580, 3835390401, 4022224774, 264347078, 604807628,
   770255983, 1249150122, 1555081692, 1996064986, 2554220882,
   2821834349, 2952996808, 3210313671, 3336571891, 3584528711,
   113926993, 338241895, 666307205, 773529912, 1294757372,
   1396182291, 1695183700, 1986661051, 2177026350, 2456956037,
   2730485921, 2820302411, 3259730800, 3345764771, 3516065817,
   3600352804, 4094571909, 275423344, 430227734, 506948616,
   659060556, 883997877, 958139571, 1322822218, 1537002063,
   1747873779, 1955562222, 2024104815, 2227730452, 2361852424,
   2428436474, 2756734187, 3204031479, 3329325298]

/-- The SHA-256 initial hash value (FIPS 180-4 §5.3.3, in decimal). -/
def shaH0 : List Nat :=
  [1779033703, 3144134277, 1013904242, 2773480762,
   1359893119, 2600822924, 528734635, 1541459225]

/-- Big-endian byte serialisation of `v` on `n` bytes. -/
def bytesBE (n v : Nat) : List Nat :=
  (List.range n).map (fun i => (v >>> (8 * (n - 1 - i))) % 256)

/-- SHA-256 message padding: append `0x80`, zeros, and the 64-bit bit length. -/
def padMessage (msg : List Nat) : List Nat :=
  let padZeros := (64 + 56 - ((msg.length + 1) % 64)) % 64
  msg ++ [0x80] ++ List.replicate padZeros 0 ++ bytesBE 8 (msg.length * 8)

/-- Cut a padded message into 64-byte blocks. -/
def toBlocks (l : List Nat) : List (List Nat) :=
  (List.range (l.length / 64)).map (fun i => ((l.drop (64 * i)).take 64))

/-- The 16 big-endian 32-bit words of one 64-byte block. -/
def blockWords (block : List Nat) : List Nat :=
  (List.range 16).map (fun i =>
    (block.getD (4 * i) 0 <<< 24) ||| (block.getD (4 * i + 1) 0 <<< 16) |||
    (block.getD (4 * i + 2) 0 <<< 8) ||| block.getD (4 * i + 3) 0)

/-- The 64-entry SHA-256 message schedule extending the 16 block words. -/
def schedule (w16 : List Nat) : List Nat :=
  (List.range 48).foldl
    (fun w _ =>
      w ++ [w32 (smallSigma1 (w.getD (w.length - 2) 0) + w.getD (w.length - 7) 0 +
                 smallSigma0 (w.getD (w.length - 15) 0) + w.getD (w.length - 16) 0)])
    w16

/-- One SHA-256 round on the state `[a, b, c, d, e, f, g, h]`. -/
def shaRound (w : List Nat) (st : List Nat) (i : Nat) : List Nat :=
  let a := st.getD 0 0
  let b := st.getD 1 0
  let c := st.getD 2 0
  let d := st.getD 3 0
  let e := st.getD 4 0
  let f := st.getD 5 0
  let g := st.getD 6 0
  let hh := st.getD 7 0
  let t1 := w32 (hh + bigSigma1 e + shaCh e f g + shaK.getD i 0 + w.getD i 0)
  let t2 := w32 (bigSigma0 a + shaMaj a b c)
  [w32 (t1 + t2), a, b, c, w32 (d + t1), e, f, g]

/-- SHA-256 compression of one block into the running hash. -/
def compressBlock (hs : List Nat) (block : List Nat) : List Nat :=
  let w := schedule (blockWords block)
  let st := (List.range 64).foldl (shaRound w) hs
  (List.range 8).map (fun i => w32 (hs.getD i 0 + st.getD i 0))

/-- SHA-256 digest of a byte sequence, as 32 bytes. -/
def sha256Bytes (msg : List Nat) : List Nat :=
  let hs := (toBlocks (padMessage msg)).foldl compressBlock shaH0
  hs.foldr (fun wd acc => bytesBE 4 wd ++ acc) []

/-- Lowercase hex encoding of a byte sequence (Go `hex.EncodeToString`). -/
def hexEncode (bs : List Nat) : String :=
  ⟨bs.foldr (fun b acc =>
      "0123456789abcdef".data.getD (b / 16) '0' ::
      "0123456789abcdef".data.getD (b % 16) '0' :: acc) []⟩

/-- `hex.EncodeToString(sha256.Sum(...))` over the UTF-8 bytes of a string. -/
def sha256hex (s : String) : String := hexEncode (sha256Bytes (utf8Bytes s))

set_option maxRecDepth 40000

example : sha256hex "" =
    "e3b0c44298fc1c149afbf4c8996fb92427ae41e4649b934ca495991b7852b855" := by decide

example : sha256hex "abc" =
    "ba7816bf8f01cfea414140de5dae2223b00361a396177a9cb410ff61f20015ad" := by decide

/-- An inbound HTTP request as the handler sees it: `r.URL.RequestURI()`
(path plus raw query) and the `X-Maps-API-Key` header value (`""` when the
header is absent, as `http.Header.Get` returns). -/
structure Request where
  requestURI : String
  xMapsApiKey : String
deriving DecidableEq

/-- The configuration fields the handler reads (`Config` in the source). -/
structure Config where
  BaseURL : String
  CacheTimeout : Nat
  RedisNamespace : String
deriving DecidableEq

/-- Embedding of `getCacheKey(r *http.Request, prefix string)`:
SHA-256 of the raw request URI, hex encoded, with the configured namespace
(called `prefix` in the Go source) prepended with `":"` when non-empty. -/
def getCacheKey (r : Request) (pfx : String) : String :=
  let key := sha256hex r.requestURI
  if pfx != "" then pfx ++ ":" ++ key else key

/-- Result of `s.redis.Get(...)`: found value, `redis.Nil` (key absent), or a
transport/protocol error.  The Go code only distinguishes `err == nil`. -/
inductive GetResult where
  | ok (value : String)
  | notFound
  | err
deriving DecidableEq

/-- Result of `s.redis.Set(...).Err()`. -/
inductive SetResult where
  | ok
  | err
deriving DecidableEq

/-- Model of the Redis store: its entries (key, value, TTL) plus whether
`GET` and `SET` round-trips currently succeed (store up or down). -/
structure Store where
  entries : List (String × String × Nat)
  getUp : Bool
  setUp : Bool
deriving DecidableEq

/-- Lookup of a key among the entries. -/
def lookupEntry (es : List (String × String × Nat)) (k : String) :
    Option (String × Nat) :=
  (es.find? (fun e => e.1 == k)).map (fun e => e.2)

/-- Redis `SET` overwrites the value and TTL stored under the key. -/
def setEntry (es : List (String × String × Nat)) (k v : String) (ttl : Nat) :
    List (String × String × Nat) :=
  (k, v, ttl) :: es.filter (fun e => !(e.1 == k))

/-- `s.redis.Get(ctx, key).Result()`: an error when the store is down,
otherwise the stored value or not-found. -/
def storeGet (st : Store) (k : String) : GetResult :=
  if st.getUp then
    match lookupEntry st.entries k with
    | some (v, _) => GetResult.ok v
    | none => GetResult.notFound
  else GetResult.err

/-- `s.redis.Set(ctx, key, body, ttl)`: an error (store unchanged) when the
store is down, otherwise the entry is written. -/
def storeSet (st : Store) (k v : String) (ttl : Nat) : SetResult × Store :=
  if st.setUp then
    (SetResult.ok, { st with entries := setEntry st.entries k v ttl })
  else (SetResult.err, st)

/-- Upstream `http.Response` as the handler consumes it: status code, the
four headers it reads, and the outcome of `io.ReadAll(resp.Body)`
(`none` models a body read error). -/
structure UpstreamResponse where
  statusCode : Nat
  contentType : String
  date : String
  expires : String
  altSvc : String
  bodyRead : Option String
deriving DecidableEq

/-- Result of `s.httpClient.Get(url)`: transport error or a response. -/
inductive FetchResult where
  | transportError
  | success (resp : UpstreamResponse)
deriving DecidableEq

/-- Log severities of the source's `Logger`. -/
inductive LogSeverity where
  | LogInfo
  | LogWarning
  | LogError
  | LogCritical
deriving DecidableEq

/-- The response written to the client: status code, the headers set by the
handler in order, and the body bytes. -/
structure Response where
  statusCode : Nat
  headers : List (String × String)
  body : String
deriving DecidableEq

/-- Go `http.Error(w, msg, code)`: plain-text error with the message and a
trailing newline. -/
def httpError (msg : String) (code : Nat) : Response :=
  { statusCode := code
    headers := [("Content-Type", "text/plain; charset=utf-8"),
                ("X-Content-Type-Options", "nosniff")]
    body := msg ++ "\n" }

/-- Everything one call of the handler produces: the client response, the
store afterwards, how often and with which URLs the upstream was fetched,
and the log lines emitted. -/
structure QueryResult where
  response : Response
  store : Store
  fetchCount : Nat
  fetchedURLs : List String
  logs : List (LogSeverity × String)
deriving DecidableEq

/-- Whether `needle` is a leading segment of `hay`. -/
def startsWithList : List Char → List Char → Bool
  | [], _ => true
  | _ :: _, [] => false
  | a :: as, b :: bs => a == b && startsWithList as bs

/-- Whether `needle` occurs inside `hay` (Go `strings.Contains`). -/
def containsSub (needle : List Char) : List Char → Bool
  | [] => startsWithList needle []
  | b :: bs => startsWithList needle (b :: bs) || containsSub needle bs

/-- Go `strings.Contains(s, sub)`. -/
def hasSubstring (s sub : String) : Bool := containsSub sub.data s.data

/-- The miss-path URI rewrite of the handler: append `"&key=" + header`
when the header credential is set and the raw URI does not contain the
substring `"key="` anywhere. -/
def outboundRURI (r : Request) : String :=
  let googleMapsAPIKey := r.xMapsApiKey
  let ruri := r.requestURI
  if googleMapsAPIKey != "" && !(hasSubstring ruri "key=") then
    ruri ++ "&key=" ++ googleMapsAPIKey
  else ruri

/-- Embedding of `(s *Server) query(w, r)`.  The upstream is an oracle
`fetch` from the outbound URL; metrics/analytics emission is omitted as it
writes no client-visible state.  Mirrors the source line by line: cache
lookup (any get error falls through to the miss path), credential
injection, fetch, body read, best-effort cache write (a failure is logged
at warning and ignored), allowlisted header passthrough, `X-Cache` marker. -/
def query (cfg : Config) (fetch : String → FetchResult) (st : Store)
    (r : Request) : QueryResult :=
  let cacheKey := getCacheKey r cfg.RedisNamespace
  match storeGet st cacheKey with
  | GetResult.ok cachedResponse =>
      { response := { statusCode := 200
                      headers := [("Content-Type", "application/json"),
                                  ("X-Cache", "HIT")]
                      body := cachedResponse }
        store := st, fetchCount := 0, fetchedURLs := [], logs := [] }
  | _ =>
      let ruri := outboundRURI r
      let url := cfg.BaseURL ++ ruri
      match fetch url with
      | FetchResult.transportError =>
          { response := httpError "Failed to fetch from Google Maps API" 500
            store := st, fetchCount := 1, fetchedURLs := [url]
            logs := [(LogSeverity.LogError, "Failed to fetch from Google Maps API")] }
      | FetchResult.success resp =>
          match resp.bodyRead with
          | none =>
              { response := httpError "Failed to read response body" 500
                store := st, fetchCount := 1, fetchedURLs := [url]
                logs := [(LogSeverity.LogError, "Failed to read response body")] }
          | some body =>
              let setOut := storeSet st cacheKey body cfg.CacheTimeout
              { response := { statusCode := 200
                              headers := [("Content-Type", resp.contentType),
                                          ("Date", resp.date),
                                          ("Expires", resp.expires),
                                          ("Alt-Svc", resp.altSvc),
                                          ("X-Cache", "MISS")]
                              body := body }
                store := setOut.2, fetchCount := 1, fetchedURLs := [url]
                logs := match setOut.1 with
                        | SetResult.ok => []
                        | SetResult.err => [(LogSeverity.LogWarning, "Failed to cache response")] }

/-- Everything after the first `'?'` of a URI (empty when there is none). -/
def afterQMark : List Char → List Char
  | [] => []
  | c :: cs => if c == '?' then cs else afterQMark cs

/-- Split a character list on `'&'`. -/
def splitAmp : List Char → List (List Char)
  | [] => [[]]
  | c :: cs =>
      match splitAmp cs, c == '&' with
      | r, true => [] :: r
      | [], false => [[c]]
      | g :: gs, false => (c :: g) :: gs

/-- Modelled from the spec: whether the inbound query string already
carries the credential parameter, i.e. a query parameter literally named
`key` (spec §4.3/§6: "only if the inbound request did not already carry
one in its query string").  Used to compare the spec's reading with the
code's substring test. -/
def specQueryCarriesCredential (uri : String) : Bool :=
  (splitAmp (afterQMark uri.data)).any
    (fun seg => startsWithList "key=".data seg || seg == "key".data)

/-- Concrete configuration used by the witnesses: the source defaults
(`BASE_URL`, 720 h TTL, empty namespace). -/
def cfg0 : Config :=
  { BaseURL := "https://maps.googleapis.com", CacheTimeout := 720, RedisNamespace := "" }

/-- A store that is up and empty. -/
def emptyStore : Store := { entries := [], getUp := true, setUp := true }

/-- A store whose `GET` round-trips fail (store down for reads). -/
def getDownStore : Store := { entries := [], getUp := false, setUp := true }

/-- An upstream oracle that answers every URL with a fixed 200 response. -/
def fetchOk : String → FetchResult := fun _ =>
  FetchResult.success
    { statusCode := 200, contentType := "application/json", date := "d1"
      expires := "e1", altSvc := "a1", bodyRead := some "mock-response" }

/-- An upstream oracle that answers every URL with a 403 response. -/
def fetch403 : String → FetchResult := fun _ =>
  FetchResult.success
    { statusCode := 403, contentType := "application/json", date := "d4"
      expires := "e4", altSvc := "a4", bodyRead := some "denied-body" }

/-- An upstream oracle that fails at the transport level on every URL. -/
def fetchDown : String → FetchResult := fun _ => FetchResult.transportError

/-- C1: the spec and the repository's own test (`TestGetCacheKey`,
server_test.go) require requests differing only in the credential
parameter to derive the identical CacheKey, but `getCacheKey` hashes the
raw request URI, so two requests to `/query` that differ only in the value
of the `key` query parameter derive different CacheKeys; the code
contradicts its own test suite. -/
theorem c1_credential_changes_key :
    getCacheKey ⟨"/query?location=NewYork&key=abc123", ""⟩ "" ≠
    getCacheKey ⟨"/query?location=NewYork&key=def456", ""⟩ "" := by decide

/-- C2: the spec and the repository's own test require query-parameter
order not to affect the CacheKey, but `getCacheKey` hashes the raw request
URI, so the two orderings used by `TestGetCacheKey` (prefix `staging`)
derive different CacheKeys; the code contradicts its own test suite. -/
theorem c2_param_order_changes_key :
    getCacheKey ⟨"/query?radius=10&type=restaurant&location=NewYork", ""⟩ "staging" ≠
    getCacheKey ⟨"/query?location=NewYork&type=restaurant&radius=10", ""⟩ "staging" := by decide

/-- C3: the spec and the repository's own test require the directions
endpoint to key only on `origin` and `destination`, but `getCacheKey`
hashes the raw request URI, so the two directions requests that
`TestGetCacheKey` requires to collide (same origin and destination,
different extra parameters and ordering) derive different CacheKeys; the
code contradicts its own test suite. -/
theorem c3_whitelist_not_implemented :
    getCacheKey ⟨"/maps/api/directions/json?origin=30.1,40.2&destination=31.1,41.2&foo=bar", ""⟩ "" ≠
    getCacheKey ⟨"/maps/api/directions/json?destination=31.1,41.2&origin=30.1,40.2&baz=qux", ""⟩ "" := by decide

/-- C8: the claim is false as stated: the code gates credential injection
on `strings.Contains(ruri, "key=")`, a substring test over the whole URI,
not on whether the query string carries a credential parameter.  For
`/query?monkey=1` with a header credential, the query carries no `key`
parameter, yet the handler does not append the credential, because
`monkey=1` contains the substring `key=`. -/
theorem c8_counterexample :
    specQueryCarriesCredential "/query?monkey=1" = false ∧
    outboundRURI ⟨"/query?monkey=1", "SECRET"⟩ = "/query?monkey=1" := by decide

/-- C8 (amended): on the miss path the fetcher is invoked with
`BaseURL ++ outboundRURI r`, and the header credential is appended if and
only if it is non-empty and the raw request URI does not contain the
substring `"key="` anywhere (a test that also matches parameter names
merely ending in `key` and occurrences in the path); a URI already
containing `"key="` — in particular a query-supplied credential — is
passed through unchanged. -/
theorem c8_amended_substring_gate (cfg : Config) (fetch : String → FetchResult)
    (st : Store) (r : Request)
    (h : storeGet st (getCacheKey r cfg.RedisNamespace) = GetResult.notFound ∨
         storeGet st (getCacheKey r cfg.RedisNamespace) = GetResult.err) :
    (query cfg fetch st r).fetchedURLs = [cfg.BaseURL ++ outboundRURI r] ∧
    (hasSubstring r.requestURI "key=" = true → outboundRURI r = r.requestURI) ∧
    (r.xMapsApiKey = "" → outboundRURI r = r.requestURI) ∧
    (r.xMapsApiKey ≠ "" → hasSubstring r.requestURI "key=" = false →
      outboundRURI r = r.requestURI ++ "&key=" ++ r.xMapsApiKey) := by
  refine ⟨?_, ?_, ?_, ?_⟩
  · rcases h with h | h <;>
      · simp only [query]
        rw [h]
        rcases hf : fetch (cfg.BaseURL ++ outboundRURI r) with _ | resp
        · simp
        · rcases hb : resp.bodyRead with _ | body <;> simp [hb]
  · intro hx
    simp [outboundRURI, hx]
  · intro hx
    simp [outboundRURI, hx]
  · intro h1 h2
    simp [outboundRURI, h1, h2]

/-- C8 witness: a request with an empty query and a header credential, an
empty up store, and the fixed-response upstream. -/
theorem c8_amended_substring_gate_witness :
    (query cfg0 fetchOk emptyStore ⟨"/maps/api/geocode/json", "SECRET"⟩).fetchedURLs =
      [cfg0.BaseURL ++ outboundRURI ⟨"/maps/api/geocode/json", "SECRET"⟩] ∧
    (hasSubstring "/maps/api/geocode/json" "key=" = true →
      outboundRURI ⟨"/maps/api/geocode/json", "SECRET"⟩ = "/maps/api/geocode/json") ∧
    ("SECRET" = "" → outboundRURI ⟨"/maps/api/geocode/json", "SECRET"⟩ = "/maps/api/geocode/json") ∧
    ("SECRET" ≠ "" → hasSubstring "/maps/api/geocode/json" "key=" = false →
      outboundRURI ⟨"/maps/api/geocode/json", "SECRET"⟩ =
        "/maps/api/geocode/json" ++ "&key=" ++ "SECRET") :=
  c8_amended_substring_gate cfg0 fetchOk emptyStore ⟨"/maps/api/geocode/json", "SECRET"⟩
    (Or.inl (by decide))

/-- C4: on a populated cache entry the handler returns the stored bytes
verbatim with status 200, `X-Cache: HIT`, `Content-Type:
application/json`, does not invoke the upstream fetcher, and leaves the
store untouched. -/
theorem c4_cache_hit (cfg : Config) (fetch : String → FetchResult)
    (st : Store) (r : Request) (v : String)
    (h : storeGet st (getCacheKey r cfg.RedisNamespace) = GetResult.ok v) :
    (query cfg fetch st r).response.body = v ∧
    (query cfg fetch st r).response.statusCode = 200 ∧
    (query cfg fetch st r).response.headers =
      [("Content-Type", "application/json"), ("X-Cache", "HIT")] ∧
    (query cfg fetch st r).fetchCount = 0 ∧
    (query cfg fetch st r).store = st := by
  simp only [query]
  rw [h]
  simp

/-- C4 witness: a store populated exactly under the derived key. -/
theorem c4_cache_hit_witness :
    (query cfg0 fetchDown
        { entries := [(getCacheKey ⟨"/query?location=TestLocation", ""⟩ "", "cached-data", 720)],
          getUp := true, setUp := true }
        ⟨"/query?location=TestLocation", ""⟩).response.body = "cached-data" ∧
    (query cfg0 fetchDown
        { entries := [(getCacheKey ⟨"/query?location=TestLocation", ""⟩ "", "cached-data", 720)],
          getUp := true, setUp := true }
        ⟨"/query?location=TestLocation", ""⟩).response.statusCode = 200 ∧
    (query cfg0 fetchDown
        { entries := [(getCacheKey ⟨"/query?location=TestLocation", ""⟩ "", "cached-data", 720)],
          getUp := true, setUp := true }
        ⟨"/query?location=TestLocation", ""⟩).response.headers =
      [("Content-Type", "application/json"), ("X-Cache", "HIT")] ∧
    (query cfg0 fetchDown
        { entries := [(getCacheKey ⟨"/query?location=TestLocation", ""⟩ "", "cached-data", 720)],
          getUp := true, setUp := true }
        ⟨"/query?location=TestLocation", ""⟩).fetchCount = 0 ∧
    (query cfg0 fetchDown
        { entries := [(getCacheKey ⟨"/query?location=TestLocation", ""⟩ "", "cached-data", 720)],
          getUp := true, setUp := true }
        ⟨"/query?location=TestLocation", ""⟩).store =
      { entries := [(getCacheKey ⟨"/query?location=TestLocation", ""⟩ "", "cached-data", 720)],
        getUp := true, setUp := true } :=
  c4_cache_hit cfg0 fetchDown
    { entries := [(getCacheKey ⟨"/query?location=TestLocation", ""⟩ "", "cached-data", 720)],
      getUp := true, setUp := true }
    ⟨"/query?location=TestLocation", ""⟩ "cached-data" (by decide)

/-- A key freshly written by `setEntry` is found with its value and TTL. -/
theorem lookupEntry_setEntry (es : List (String × String × Nat)) (k v : String)
    (ttl : Nat) : lookupEntry (setEntry es k v ttl) k = some (v, ttl) := by
  simp [lookupEntry, setEntry, List.find?]

/-- C5: on a miss (not-found or failed get) with a successful fetch and
body read, the handler fetches exactly once from `BaseURL ++ outbound
URI`, answers 200 with the fetched body, the four allowlisted upstream
headers and `X-Cache: MISS`, and, when the store accepts writes, stores
exactly that body under the derived key with the configured TTL. -/
theorem c5_cache_miss (cfg : Config) (fetch : String → FetchResult)
    (st : Store) (r : Request) (resp : UpstreamResponse) (b : String)
    (h : storeGet st (getCacheKey r cfg.RedisNamespace) = GetResult.notFound ∨
         storeGet st (getCacheKey r cfg.RedisNamespace) = GetResult.err)
    (hf : fetch (cfg.BaseURL ++ outboundRURI r) = FetchResult.success resp)
    (hb : resp.bodyRead = some b) :
    (query cfg fetch st r).fetchCount = 1 ∧
    (query cfg fetch st r).fetchedURLs = [cfg.BaseURL ++ outboundRURI r] ∧
    (query cfg fetch st r).response.statusCode = 200 ∧
    (query cfg fetch st r).response.body = b ∧
    (query cfg fetch st r).response.headers =
      [("Content-Type", resp.contentType), ("Date", resp.date),
       ("Expires", resp.expires), ("Alt-Svc", resp.altSvc),
       ("X-Cache", "MISS")] ∧
    (st.setUp = true →
      lookupEntry (query cfg fetch st r).store.entries
        (getCacheKey r cfg.RedisNamespace) = some (b, cfg.CacheTimeout)) := by
  rcases h with h | h <;>
  · simp only [query, h, hf, hb]
    refine ⟨trivial, trivial, trivial, trivial, trivial, fun hs => ?_⟩
    simp [storeSet, hs, lookupEntry_setEntry]

/-- C5 witness: empty up store, fixed 200 upstream. -/
theorem c5_cache_miss_witness :
    (query cfg0 fetchOk emptyStore ⟨"/query?location=TestLocation", ""⟩).fetchCount = 1 ∧
    (query cfg0 fetchOk emptyStore ⟨"/query?location=TestLocation", ""⟩).fetchedURLs =
      [cfg0.BaseURL ++ outboundRURI ⟨"/query?location=TestLocation", ""⟩] ∧
    (query cfg0 fetchOk emptyStore ⟨"/query?location=TestLocation", ""⟩).response.statusCode = 200 ∧
    (query cfg0 fetchOk emptyStore ⟨"/query?location=TestLocation", ""⟩).response.body = "mock-response" ∧
    (query cfg0 fetchOk emptyStore ⟨"/query?location=TestLocation", ""⟩).response.headers =
      [("Content-Type", "application/json"), ("Date", "d1"),
       ("Expires", "e1"), ("Alt-Svc", "a1"), ("X-Cache", "MISS")] ∧
    (emptyStore.setUp = true →
      lookupEntry (query cfg0 fetchOk emptyStore ⟨"/query?location=TestLocation", ""⟩).store.entries
        (getCacheKey ⟨"/query?location=TestLocation", ""⟩ cfg0.RedisNamespace) =
        some ("mock-response", cfg0.CacheTimeout)) :=
  c5_cache_miss cfg0 fetchOk emptyStore ⟨"/query?location=TestLocation", ""⟩
    { statusCode := 200, contentType := "application/json", date := "d1"
      expires := "e1", altSvc := "a1", bodyRead := some "mock-response" }
    "mock-response" (Or.inl (by decide)) rfl rfl

/-- C6: on a miss whose upstream fetch fails at the transport level, the
handler answers 500 with the fixed message (plus the newline `http.Error`
appends), logs it at error severity, and leaves the store untouched. -/
theorem c6_transport_error (cfg : Config) (fetch : String → FetchResult)
    (st : Store) (r : Request)
    (h : storeGet st (getCacheKey r cfg.RedisNamespace) = GetResult.notFound ∨
         storeGet st (getCacheKey r cfg.RedisNamespace) = GetResult.err)
    (hf : fetch (cfg.BaseURL ++ outboundRURI r) = FetchResult.transportError) :
    (query cfg fetch st r).response.statusCode = 500 ∧
    (query cfg fetch st r).response.body = "Failed to fetch from Google Maps API" ++ "\n" ∧
    (query cfg fetch st r).store = st ∧
    (query cfg fetch st r).logs =
      [(LogSeverity.LogError, "Failed to fetch from Google Maps API")] := by
  rcases h with h | h <;> simp [query, h, hf, httpError]

/-- C6 witness: empty up store, upstream down. -/
theorem c6_transport_error_witness :
    (query cfg0 fetchDown emptyStore ⟨"/query?location=TestLocation", ""⟩).response.statusCode = 500 ∧
    (query cfg0 fetchDown emptyStore ⟨"/query?location=TestLocation", ""⟩).response.body =
      "Failed to fetch from Google Maps API" ++ "\n" ∧
    (query cfg0 fetchDown emptyStore ⟨"/query?location=TestLocation", ""⟩).store = emptyStore ∧
    (query cfg0 fetchDown emptyStore ⟨"/query?location=TestLocation", ""⟩).logs =
      [(LogSeverity.LogError, "Failed to fetch from Google Maps API")] :=
  c6_transport_error cfg0 fetchDown emptyStore ⟨"/query?location=TestLocation", ""⟩
    (Or.inl (by decide)) rfl

/-- C7: a store failure is never surfaced as a request failure.  A failed
get behaves exactly like not-found (same response, same fetch count, same
resulting entries), and a failed set is logged at warning while the
upstream response is still served (same response as with a working set)
and the entries stay unchanged. -/
theorem c7_store_failure_invisible (cfg : Config) (fetch : String → FetchResult)
    (E : List (String × String × Nat)) (s : Bool) (r : Request)
    (resp : UpstreamResponse) (b : String)
    (hk : lookupEntry E (getCacheKey r cfg.RedisNamespace) = none)
    (hf : fetch (cfg.BaseURL ++ outboundRURI r) = FetchResult.success resp)
    (hb : resp.bodyRead = some b) :
    (query cfg fetch ⟨E, false, s⟩ r).response =
      (query cfg fetch ⟨E, true, s⟩ r).response ∧
    (query cfg fetch ⟨E, false, s⟩ r).fetchCount =
      (query cfg fetch ⟨E, true, s⟩ r).fetchCount ∧
    (query cfg fetch ⟨E, false, s⟩ r).store.entries =
      (query cfg fetch ⟨E, true, s⟩ r).store.entries ∧
    (query cfg fetch ⟨E, true, false⟩ r).response =
      (query cfg fetch ⟨E, true, true⟩ r).response ∧
    (query cfg fetch ⟨E, true, false⟩ r).logs =
      [(LogSeverity.LogWarning, "Failed to cache response")] ∧
    (query cfg fetch ⟨E, true, false⟩ r).store.entries = E ∧
    (query cfg fetch ⟨E, true, false⟩ r).response.statusCode = 200 ∧
    (query cfg fetch ⟨E, true, false⟩ r).response.body = b := by
  have hg1 : storeGet ⟨E, false, s⟩ (getCacheKey r cfg.RedisNamespace) =
      GetResult.err := by simp [storeGet]
  have hg2 : storeGet ⟨E, true, s⟩ (getCacheKey r cfg.RedisNamespace) =
      GetResult.notFound := by simp [storeGet, hk]
  have hg3 : storeGet ⟨E, true, false⟩ (getCacheKey r cfg.RedisNamespace) =
      GetResult.notFound := by simp [storeGet, hk]
  have hg4 : storeGet ⟨E, true, true⟩ (getCacheKey r cfg.RedisNamespace) =
      GetResult.notFound := by simp [storeGet, hk]
  refine ⟨?_, ?_, ?_, ?_, ?_, ?_, ?_, ?_⟩ <;>
    cases s <;>
    simp [query, hg1, hg2, hg3, hg4, hf, hb, storeSet]

/-- C7 witness: empty entries, fixed 200 upstream. -/
theorem c7_store_failure_invisible_witness :
    (query cfg0 fetchOk ⟨[], false, true⟩ ⟨"/query?location=TestLocation", ""⟩).response =
      (query cfg0 fetchOk ⟨[], true, true⟩ ⟨"/query?location=TestLocation", ""⟩).response ∧
    (query cfg0 fetchOk ⟨[], false, true⟩ ⟨"/query?location=TestLocation", ""⟩).fetchCount =
      (query cfg0 fetchOk ⟨[], true, true⟩ ⟨"/query?location=TestLocation", ""⟩).fetchCount ∧
    (query cfg0 fetchOk ⟨[], false, true⟩ ⟨"/query?location=TestLocation", ""⟩).store.entries =
      (query cfg0 fetchOk ⟨[], true, true⟩ ⟨"/query?location=TestLocation", ""⟩).store.entries ∧
    (query cfg0 fetchOk ⟨[], true, false⟩ ⟨"/query?location=TestLocation", ""⟩).response =
      (query cfg0 fetchOk ⟨[], true, true⟩ ⟨"/query?location=TestLocation", ""⟩).response ∧
    (query cfg0 fetchOk ⟨[], true, false⟩ ⟨"/query?location=TestLocation", ""⟩).logs =
      [(LogSeverity.LogWarning, "Failed to cache response")] ∧
    (query cfg0 fetchOk ⟨[], true, false⟩ ⟨"/query?location=TestLocation", ""⟩).store.entries = [] ∧
    (query cfg0 fetchOk ⟨[], true, false⟩ ⟨"/query?location=TestLocation", ""⟩).response.statusCode = 200 ∧
    (query cfg0 fetchOk ⟨[], true, false⟩ ⟨"/query?location=TestLocation", ""⟩).response.body = "mock-response" :=
  c7_store_failure_invisible cfg0 fetchOk [] true ⟨"/query?location=TestLocation", ""⟩
    { statusCode := 200, contentType := "application/json", date := "d1"
      expires := "e1", altSvc := "a1", bodyRead := some "mock-response" }
    "mock-response" rfl rfl rfl

/-- C9: on a miss with a successful fetch and body read, the handler never
looks at the upstream status code (`resp.statusCode` is unconstrained
here): the client gets 200 with `X-Cache: MISS` and the fetched body, the
body is stored under the derived key with the full configured TTL, and an
identical second request is served from the cache as a HIT with that same
body, without fetching. -/
theorem c9_status_code_ignored (cfg : Config) (fetch : String → FetchResult)
    (E : List (String × String × Nat)) (r : Request)
    (resp : UpstreamResponse) (b : String)
    (hk : lookupEntry E (getCacheKey r cfg.RedisNamespace) = none)
    (hf : fetch (cfg.BaseURL ++ outboundRURI r) = FetchResult.success resp)
    (hb : resp.bodyRead = some b) :
    (query cfg fetch ⟨E, true, true⟩ r).response.statusCode = 200 ∧
    (query cfg fetch ⟨E, true, true⟩ r).response.body = b ∧
    (query cfg fetch ⟨E, true, true⟩ r).response.headers =
      [("Content-Type", resp.contentType), ("Date", resp.date),
       ("Expires", resp.expires), ("Alt-Svc", resp.altSvc),
       ("X-Cache", "MISS")] ∧
    lookupEntry (query cfg fetch ⟨E, true, true⟩ r).store.entries
      (getCacheKey r cfg.RedisNamespace) = some (b, cfg.CacheTimeout) ∧
    (query cfg fetch (query cfg fetch ⟨E, true, true⟩ r).store r).response.body = b ∧
    (query cfg fetch (query cfg fetch ⟨E, true, true⟩ r).store r).response.headers =
      [("Content-Type", "application/json"), ("X-Cache", "HIT")] ∧
    (query cfg fetch (query cfg fetch ⟨E, true, true⟩ r).store r).fetchCount = 0 := by
  have hg : storeGet ⟨E, true, true⟩ (getCacheKey r cfg.RedisNamespace) =
      GetResult.notFound := by simp [storeGet, hk]
  have hstore : (query cfg fetch ⟨E, true, true⟩ r).store =
      ⟨setEntry E (getCacheKey r cfg.RedisNamespace) b cfg.CacheTimeout, true, true⟩ := by
    simp [query, hg, hf, hb, storeSet]
  have hg2 : storeGet ⟨setEntry E (getCacheKey r cfg.RedisNamespace) b cfg.CacheTimeout,
      true, true⟩ (getCacheKey r cfg.RedisNamespace) = GetResult.ok b := by
    simp [storeGet, lookupEntry_setEntry]
  refine ⟨?_, ?_, ?_, ?_, ?_, ?_, ?_⟩ <;>
    simp [query, hg, hf, hb, storeSet, hstore, hg2, lookupEntry_setEntry]

/-- C9 witness: an upstream answering 403 with a denial body; the body is
cached and served with 200/MISS, then with HIT. -/
theorem c9_status_code_ignored_witness :
    (query cfg0 fetch403 ⟨[], true, true⟩ ⟨"/query?location=TestLocation", ""⟩).response.statusCode = 200 ∧
    (query cfg0 fetch403 ⟨[], true, true⟩ ⟨"/query?location=TestLocation", ""⟩).response.body = "denied-body" ∧
    (query cfg0 fetch403 ⟨[], true, true⟩ ⟨"/query?location=TestLocation", ""⟩).response.headers =
      [("Content-Type", "application/json"), ("Date", "d4"),
       ("Expires", "e4"), ("Alt-Svc", "a4"), ("X-Cache", "MISS")] ∧
    lookupEntry (query cfg0 fetch403 ⟨[], true, true⟩ ⟨"/query?location=TestLocation", ""⟩).store.entries
      (getCacheKey ⟨"/query?location=TestLocation", ""⟩ cfg0.RedisNamespace) =
      some ("denied-body", cfg0.CacheTimeout) ∧
    (query cfg0 fetch403
      (query cfg0 fetch403 ⟨[], true, true⟩ ⟨"/query?location=TestLocation", ""⟩).store
      ⟨"/query?location=TestLocation", ""⟩).response.body = "denied-body" ∧
    (query cfg0 fetch403
      (query cfg0 fetch403 ⟨[], true, true⟩ ⟨"/query?location=TestLocation", ""⟩).store
      ⟨"/query?location=TestLocation", ""⟩).response.headers =
      [("Content-Type", "application/json"), ("X-Cache", "HIT")] ∧
    (query cfg0 fetch403
      (query cfg0 fetch403 ⟨[], true, true⟩ ⟨"/query?location=TestLocation", ""⟩).store
      ⟨"/query?location=TestLocation", ""⟩).fetchCount = 0 :=
  c9_status_code_ignored cfg0 fetch403 [] ⟨"/query?location=TestLocation", ""⟩
    { statusCode := 403, contentType := "application/json", date := "d4"
      expires := "e4", altSvc := "a4", bodyRead := some "denied-body" }
    "denied-body" rfl rfl rfl

/-- A single-character needle occurs in a concatenation exactly when it
occurs in one of the parts. -/
theorem containsSub_single_append (c : Char) (xs ys : List Char) :
    containsSub [c] (xs ++ ys) = (containsSub [c] xs || containsSub [c] ys) := by
  induction xs with
  | nil => simp [containsSub, startsWithList]
  | cons x xs ih =>
      simp [containsSub, startsWithList, ih, Bool.or_assoc]

/-- `strings.Contains` for the one-character needle `"?"` distributes over
string concatenation. -/
theorem hasSubstring_qmark_append (a b : String) :
    hasSubstring (a ++ b) "?" = (hasSubstring a "?" || hasSubstring b "?") := by
  have hd : (a ++ b).data = a.data ++ b.data := rfl
  have hq : "?".data = ['?'] := rfl
  simp [hasSubstring, hd, hq, containsSub_single_append]

/-- C10: when the credential arrives only in the header and the raw URI
has no `"key="` substring, the handler appends it with a literal `"&"`,
unconditionally: the fetched URL is `BaseURL ++ uri ++ "&key=" ++ cred`;
when none of the base URL, the URI and the credential contains a `"?"`,
the outbound URL contains no `"?"` either. -/
theorem c10_ampersand_no_question_mark (cfg : Config)
    (fetch : String → FetchResult) (st : Store) (r : Request)
    (h : storeGet st (getCacheKey r cfg.RedisNamespace) = GetResult.notFound ∨
         storeGet st (getCacheKey r cfg.RedisNamespace) = GetResult.err)
    (hne : r.xMapsApiKey ≠ "")
    (hnokey : hasSubstring r.requestURI "key=" = false) :
    outboundRURI r = r.requestURI ++ "&key=" ++ r.xMapsApiKey ∧
    (query cfg fetch st r).fetchedURLs =
      [cfg.BaseURL ++ (r.requestURI ++ "&key=" ++ r.xMapsApiKey)] ∧
    (hasSubstring cfg.BaseURL "?" = false →
      hasSubstring r.requestURI "?" = false →
      hasSubstring r.xMapsApiKey "?" = false →
      hasSubstring (cfg.BaseURL ++ outboundRURI r) "?" = false) := by
  have ho : outboundRURI r = r.requestURI ++ "&key=" ++ r.xMapsApiKey := by
    simp [outboundRURI, hnokey, hne]
  refine ⟨ho, ?_, ?_⟩
  · have hfu : (query cfg fetch st r).fetchedURLs =
        [cfg.BaseURL ++ outboundRURI r] := by
      rcases h with h | h <;>
      · simp only [query]
        rw [h]
        rcases hfr : fetch (cfg.BaseURL ++ outboundRURI r) with _ | resp
        · simp
        · rcases hbr : resp.bodyRead with _ | body <;> simp [hbr]
    rw [hfu, ho]
  · intro h1 h2 h3
    rw [ho]
    have hk : hasSubstring "&key=" "?" = false := by decide
    simp [hasSubstring_qmark_append, h1, h2, h3, hk]

/-- C10 witness: a URI with no query string at all and a header-only
credential. -/
theorem c10_ampersand_no_question_mark_witness :
    outboundRURI ⟨"/maps/api/elevation/json", "TOKEN99"⟩ =
      "/maps/api/elevation/json" ++ "&key=" ++ "TOKEN99" ∧
    (query cfg0 fetchOk emptyStore ⟨"/maps/api/elevation/json", "TOKEN99"⟩).fetchedURLs =
      [cfg0.BaseURL ++ ("/maps/api/elevation/json" ++ "&key=" ++ "TOKEN99")] ∧
    (hasSubstring cfg0.BaseURL "?" = false →
      hasSubstring "/maps/api/elevation/json" "?" = false →
      hasSubstring "TOKEN99" "?" = false →
      hasSubstring (cfg0.BaseURL ++ outboundRURI ⟨"/maps/api/elevation/json", "TOKEN99"⟩) "?" = false) :=
  c10_ampersand_no_question_mark cfg0 fetchOk emptyStore
    ⟨"/maps/api/elevation/json", "TOKEN99"⟩
    (Or.inl (by decide)) (by decide) (by decide)
